import Mathlib

/-!
# Sample provider machine plugin: `pkg/sampleprovider/machine_server.go`

A shallow embedding of the six gRPC handlers of `MachinePlugin`
(`CreateMachine`, `DeleteMachine`, `GetMachineStatus`, `ListMachines`,
`GetVolumeIDs`, `ShutDownMachine`) and of the library calls their return values
depend on (`status.Error` of `google.golang.org/grpc/status` and
`json.Unmarshal` of `encoding/json`).

Conventions of the embedding:

* a Go pointer is an `Option` (`none` is `nil`);
* a Go `[]byte` is a `List Nat` of byte values;
* a Go `error` returned by a handler is an `Option Status` (`none` is `nil`);
* a handler either returns its pair `(response, error)` or stops with the
  run-time error of a nil pointer dereference (`Outcome.nilDereference`):
  every handler reads a field of `req` while building the arguments of its
  first or second log call, before anything else happens;
* the `glog` calls write to the process log only; they take no part in the
  returned pair and are not represented beyond the field read just mentioned;
* the receiver `ms` and the context `ctx` are passed along as in the source;
  their types are declared outside this file, so they are type parameters;
* the handlers keep no state and call no provider: what a call returns is a
  function of its request alone, and no call creates, finds or deletes a
  machine or a volume.
-/

namespace sampleprovider

/-! ## gRPC status codes and `status.Error` -/

/-- The status codes of `google.golang.org/grpc/codes`, in numeric order. -/
inductive Code where
  | OK
  | Canceled
  | Unknown
  | InvalidArgument
  | DeadlineExceeded
  | NotFound
  | AlreadyExists
  | PermissionDenied
  | ResourceExhausted
  | FailedPrecondition
  | Aborted
  | OutOfRange
  | Unimplemented
  | Internal
  | Unavailable
  | DataLoss
  | Unauthenticated
  deriving DecidableEq, Repr

/-- The wire number of a status code (`codes.NotFound` is 5, and so on). -/
def Code.toNat : Code → Nat
  | .OK => 0
  | .Canceled => 1
  | .Unknown => 2
  | .InvalidArgument => 3
  | .DeadlineExceeded => 4
  | .NotFound => 5
  | .AlreadyExists => 6
  | .PermissionDenied => 7
  | .ResourceExhausted => 8
  | .FailedPrecondition => 9
  | .Aborted => 10
  | .OutOfRange => 11
  | .Unimplemented => 12
  | .Internal => 13
  | .Unavailable => 14
  | .DataLoss => 15
  | .Unauthenticated => 16

/-- A non-nil error made by the `status` package: a code and a message. -/
structure Status where
  code : Code
  message : String
  deriving DecidableEq, Repr

/-- The library call `status.Error(c, msg)`: the `nil` error for `codes.OK`, an
error carrying `c` and `msg` otherwise. -/
def statusError (c : Code) (msg : String) : Option Status :=
  if c = Code.OK then none else some { code := c, message := msg }

/-- The library call `status.Code(err)`: `codes.OK` for the `nil` error, the
carried code otherwise. -/
def statusCode : Option Status → Code
  | none => Code.OK
  | some s => s.code

/-! ## Requests and responses of the machine interface (`cmi`) -/

/-- A Go byte slice. -/
abbrev Bytes := List Nat

/-- The request `cmi.CreateMachineRequest`. -/
structure CreateMachineRequest where
  MachineName : String
  ProviderSpec : Bytes
  Secrets : List (String × Bytes)
  LastKnownState : Bytes
  deriving DecidableEq, Repr

/-- The response `cmi.CreateMachineResponse`. -/
structure CreateMachineResponse where
  ProviderID : String
  NodeName : String
  LastKnownState : Bytes
  deriving DecidableEq, Repr

/-- The request `cmi.DeleteMachineRequest`. -/
structure DeleteMachineRequest where
  MachineName : String
  ProviderSpec : Bytes
  Secrets : List (String × Bytes)
  LastKnownState : Bytes
  deriving DecidableEq, Repr

/-- The response `cmi.DeleteMachineResponse`. -/
structure DeleteMachineResponse where
  LastKnownState : Bytes
  deriving DecidableEq, Repr

/-- The request `cmi.GetMachineStatusRequest`. -/
structure GetMachineStatusRequest where
  MachineName : String
  ProviderSpec : Bytes
  Secrets : List (String × Bytes)
  deriving DecidableEq, Repr

/-- The response `cmi.GetMachineStatusResponse`. -/
structure GetMachineStatusResponse where
  ProviderID : String
  NodeName : String
  deriving DecidableEq, Repr

/-- The request `cmi.ListMachinesRequest`. -/
structure ListMachinesRequest where
  ProviderSpec : Bytes
  Secrets : List (String × Bytes)
  deriving DecidableEq, Repr

/-- The response `cmi.ListMachinesResponse`. -/
structure ListMachinesResponse where
  MachineList : List (String × String)
  deriving DecidableEq, Repr

/-- The request `cmi.GetVolumeIDsRequest`. -/
structure GetVolumeIDsRequest where
  PVSpecList : Bytes
  deriving DecidableEq, Repr

/-- The response `cmi.GetVolumeIDsResponse`. -/
structure GetVolumeIDsResponse where
  VolumeIDs : List String
  deriving DecidableEq, Repr

/-- The request `cmi.ShutDownMachineRequest`. -/
structure ShutDownMachineRequest where
  MachineName : String
  ProviderSpec : Bytes
  Secrets : List (String × Bytes)
  LastKnownState : Bytes
  deriving DecidableEq, Repr

/-- The response `cmi.ShutDownMachineResponse`. -/
structure ShutDownMachineResponse where
  LastKnownState : Bytes
  deriving DecidableEq, Repr

/-- What a call of a handler does: it stops on a nil pointer dereference, or it
returns the pair of a response pointer and an error. -/
inductive Outcome (α : Type) where
  | nilDereference : Outcome α
  | returned (resp : Option α) (err : Option Status) : Outcome α
  deriving DecidableEq, Repr

/-- The response pointer of a returned pair (`none` also when nothing is
returned). -/
def Outcome.resp {α : Type} : Outcome α → Option α
  | .nilDereference => none
  | .returned r _ => r

/-- The error of a returned pair (`none` also when nothing is returned). -/
def Outcome.err {α : Type} : Outcome α → Option Status
  | .nilDereference => none
  | .returned _ e => e

/-- Whether the call returned at all. -/
def Outcome.isReturned {α : Type} : Outcome α → Bool
  | .nilDereference => false
  | .returned _ _ => true

/-! ## The handlers -/

section handlers

variable {Plugin Ctx : Type}

/-- The handler `CreateMachine`: reads `req.MachineName` for the log line, then
`return nil, status.Error(codes.Unimplemented, "")`. -/
def CreateMachine (_ms : Plugin) (_ctx : Ctx) (req : Option CreateMachineRequest) :
    Outcome CreateMachineResponse :=
  match req with
  | none => .nilDereference
  | some _ => .returned none (statusError Code.Unimplemented "")

/-- The handler `DeleteMachine`: reads `req.MachineName` for the log line, then
`return nil, status.Error(codes.Unimplemented, "")`. -/
def DeleteMachine (_ms : Plugin) (_ctx : Ctx) (req : Option DeleteMachineRequest) :
    Outcome DeleteMachineResponse :=
  match req with
  | none => .nilDereference
  | some _ => .returned none (statusError Code.Unimplemented "")

/-- The handler `GetMachineStatus`: reads `req.MachineName` for the log line,
then `return nil, status.Error(codes.Unimplemented, "")`; the `NotFound`
return a few lines above is commented out in the source. -/
def GetMachineStatus (_ms : Plugin) (_ctx : Ctx) (req : Option GetMachineStatusRequest) :
    Outcome GetMachineStatusResponse :=
  match req with
  | none => .nilDereference
  | some _ => .returned none (statusError Code.Unimplemented "")

/-- The handler `ListMachines`: reads `req.ProviderSpec` for the second log
line, then `return nil, status.Error(codes.Unimplemented, "")`. -/
def ListMachines (_ms : Plugin) (_ctx : Ctx) (req : Option ListMachinesRequest) :
    Outcome ListMachinesResponse :=
  match req with
  | none => .nilDereference
  | some _ => .returned none (statusError Code.Unimplemented "")

/-- The handler `GetVolumeIDs`: reads `req.PVSpecList` for the second log line,
decodes it with `json.Unmarshal` into a `[]*corev1.PersistentVolumeSpec`, and
returns `nil, status.Error(codes.Internal, err.Error())` when the decoder
reports `err`, `nil, status.Error(codes.Unimplemented, "")` otherwise. The
decoder is the argument `unmarshal`, giving the error text or the decoded
value of type `Vol`. -/
def GetVolumeIDs {Vol : Type} (unmarshal : Bytes → Except String Vol)
    (_ms : Plugin) (_ctx : Ctx) (req : Option GetVolumeIDsRequest) :
    Outcome GetVolumeIDsResponse :=
  match req with
  | none => .nilDereference
  | some r =>
    match unmarshal r.PVSpecList with
    | .error err => .returned none (statusError Code.Internal err)
    | .ok _volumeSpecs => .returned none (statusError Code.Unimplemented "")

/-- The handler `ShutDownMachine`: reads `req.MachineName` for the log line,
then `return nil, status.Error(codes.Unimplemented, "")`. -/
def ShutDownMachine (_ms : Plugin) (_ctx : Ctx) (req : Option ShutDownMachineRequest) :
    Outcome ShutDownMachineResponse :=
  match req with
  | none => .nilDereference
  | some _ => .returned none (statusError Code.Unimplemented "")

end handlers

/-! ## The decoder: `json.Unmarshal` into `[]*corev1.PersistentVolumeSpec`

`json.Unmarshal(data, &volumeSpecs)` is library code (`encoding/json`). It runs
in two phases: `checkValid` scans all of `data` with the byte-at-a-time state
machine of `scanner.go` and reports a `SyntaxError`; only then is the value
stored into the target. Both phases are written out below. The one part that
depends on the fields of `corev1.PersistentVolumeSpec`, a type declared outside
this repository, is the storing of the elements of a non-empty array: it is the
argument `storeElements`. The scanner is the one of Go 1.15 and later, which
bounds the nesting depth. -/

/-- The result codes of a scanner step (`scanContinue` ... `scanError`). -/
inductive ScanCode where
  | scanContinue
  | scanBeginLiteral
  | scanBeginObject
  | scanObjectKey
  | scanObjectValue
  | scanEndObject
  | scanBeginArray
  | scanArrayValue
  | scanEndArray
  | scanSkipSpace
  | scanEnd
  | scanError
  deriving DecidableEq, Repr

/-- The entries of the scanner's parse stack. -/
inductive ParseState where
  | parseObjectKey
  | parseObjectValue
  | parseArrayValue
  deriving DecidableEq, Repr

/-- The step functions of the scanner, by name. -/
inductive StepFn where
  | stateBeginValueOrEmpty
  | stateBeginValue
  | stateBeginStringOrEmpty
  | stateBeginString
  | stateEndValue
  | stateEndTop
  | stateInString
  | stateInStringEsc
  | stateInStringEscU
  | stateInStringEscU1
  | stateInStringEscU12
  | stateInStringEscU123
  | stateNeg
  | state1
  | state0
  | stateDot
  | stateDot0
  | stateE
  | stateESign
  | stateE0
  | stateT
  | stateTr
  | stateTru
  | stateF
  | stateFa
  | stateFal
  | stateFals
  | stateN
  | stateNu
  | stateNul
  | stateError
  deriving DecidableEq, Repr

/-- A `json.SyntaxError`: its message and the offset at which it was found. -/
structure SyntaxError where
  msg : String
  Offset : Nat
  deriving DecidableEq, Repr

/-- The scanner state: the next step function, whether the top-level value has
ended, the parse stack (innermost entry first), the recorded error and the
count of bytes consumed. -/
structure Scanner where
  step : StepFn
  endTop : Bool
  parseState : List ParseState
  err : Option SyntaxError
  bytes : Nat
  deriving DecidableEq, Repr

/-- The nesting limit of the scanner. -/
def maxNestingDepth : Nat := 10000

/-- The scanner after `reset` (the byte count starts at zero). -/
def Scanner.reset : Scanner :=
  { step := .stateBeginValue, endTop := false, parseState := [], err := none, bytes := 0 }

/-- The test `isSpace`: space, tab, carriage return, line feed. -/
def isSpace (c : Nat) : Bool :=
  c == 0x20 || c == 0x09 || c == 0x0d || c == 0x0a

/-- The test for a decimal digit `0` to `9`. -/
def isDigit (c : Nat) : Bool := 0x30 ≤ c && c ≤ 0x39

/-- The test for a digit `1` to `9`. -/
def isDigit19 (c : Nat) : Bool := 0x31 ≤ c && c ≤ 0x39

/-- The test for a hexadecimal digit, either case. -/
def isHex (c : Nat) : Bool :=
  isDigit c || (0x61 ≤ c && c ≤ 0x66) || (0x41 ≤ c && c ≤ 0x46)

/-- One lower-case hexadecimal digit. -/
def lowerhex (n : Nat) : Char :=
  if n < 10 then Char.ofNat (0x30 + n) else Char.ofNat (0x57 + n)

/-- The printable code points below 256 (`strconv.IsPrint`). -/
def isPrintLatin1 (c : Nat) : Bool :=
  (0x20 ≤ c && c < 0x7f) || (0xa1 ≤ c && c ≤ 0xff && c != 0xad)

/-- The text of `strconv.Quote(string(c))` without its two double quotes, for a
byte `c` other than the double quote. -/
def quoteBody (c : Nat) : String :=
  if c = 0x5c then "\\\\"
  else if isPrintLatin1 c then String.singleton (Char.ofNat c)
  else if c = 0x07 then "\\a"
  else if c = 0x08 then "\\b"
  else if c = 0x0c then "\\f"
  else if c = 0x0a then "\\n"
  else if c = 0x0d then "\\r"
  else if c = 0x09 then "\\t"
  else if c = 0x0b then "\\v"
  else if c < 0x20 || c = 0x7f then
    "\\x" ++ String.mk [lowerhex (c / 16), lowerhex (c % 16)]
  else
    "\\u00" ++ String.mk [lowerhex (c / 16 % 16), lowerhex (c % 16)]

/-- The helper `quoteChar`: the byte between single quotes, as in a message. -/
def quoteChar (c : Nat) : String :=
  if c = 0x27 then "'\\''"
  else if c = 0x22 then "'\"'"
  else "'" ++ quoteBody c ++ "'"

/-- The method `error`: records the syntax error and switches to the dead state. -/
def Scanner.error (s : Scanner) (c : Nat) (context : String) : Scanner × ScanCode :=
  ({ s with step := .stateError,
            err := some { msg := "invalid character " ++ quoteChar c ++ " " ++ context,
                          Offset := s.bytes } },
   .scanError)

/-- The method `pushParseState`. -/
def Scanner.pushParseState (s : Scanner) (c : Nat) (newParseState : ParseState)
    (successState : ScanCode) : Scanner × ScanCode :=
  let s1 := { s with parseState := newParseState :: s.parseState }
  if s1.parseState.length ≤ maxNestingDepth then (s1, successState)
  else s1.error c "exceeded max depth"

/-- The method `popParseState`. -/
def Scanner.popParseState (s : Scanner) : Scanner :=
  let rest := s.parseState.tail
  if rest.length = 0 then { s with parseState := rest, step := .stateEndTop, endTop := true }
  else { s with parseState := rest, step := .stateEndValue }

/-- The step `stateEndTop`: a byte after the top-level value; a byte that is not
space records an error, and the step still answers `scanEnd`. -/
def stateEndTop (s : Scanner) (c : Nat) : Scanner × ScanCode :=
  if !isSpace c then ((s.error c "after top-level value").1, .scanEnd)
  else (s, .scanEnd)

/-- The step `stateEndValue`: a byte after a complete value. -/
def stateEndValue (s : Scanner) (c : Nat) : Scanner × ScanCode :=
  match s.parseState with
  | [] => stateEndTop { s with step := .stateEndTop, endTop := true } c
  | ps :: rest =>
    if isSpace c then ({ s with step := .stateEndValue }, .scanSkipSpace)
    else
      match ps with
      | .parseObjectKey =>
        if c = 0x3a then
          ({ s with parseState := .parseObjectValue :: rest, step := .stateBeginValue },
           .scanObjectKey)
        else s.error c "after object key"
      | .parseObjectValue =>
        if c = 0x2c then
          ({ s with parseState := .parseObjectKey :: rest, step := .stateBeginString },
           .scanObjectValue)
        else if c = 0x7d then (s.popParseState, .scanEndObject)
        else s.error c "after object key:value pair"
      | .parseArrayValue =>
        if c = 0x2c then ({ s with step := .stateBeginValue }, .scanArrayValue)
        else if c = 0x5d then (s.popParseState, .scanEndArray)
        else s.error c "after array element"

/-- The step `stateBeginValue`: the first byte of a value. -/
def stateBeginValue (s : Scanner) (c : Nat) : Scanner × ScanCode :=
  if isSpace c then (s, .scanSkipSpace)
  else if c = 0x7b then
    Scanner.pushParseState { s with step := .stateBeginStringOrEmpty } c
      .parseObjectKey .scanBeginObject
  else if c = 0x5b then
    Scanner.pushParseState { s with step := .stateBeginValueOrEmpty } c
      .parseArrayValue .scanBeginArray
  else if c = 0x22 then ({ s with step := .stateInString }, .scanBeginLiteral)
  else if c = 0x2d then ({ s with step := .stateNeg }, .scanBeginLiteral)
  else if c = 0x30 then ({ s with step := .state0 }, .scanBeginLiteral)
  else if c = 0x74 then ({ s with step := .stateT }, .scanBeginLiteral)
  else if c = 0x66 then ({ s with step := .stateF }, .scanBeginLiteral)
  else if c = 0x6e then ({ s with step := .stateN }, .scanBeginLiteral)
  else if isDigit19 c then ({ s with step := .state1 }, .scanBeginLiteral)
  else s.error c "looking for beginning of value"

/-- The step `stateBeginValueOrEmpty`: after `[`. -/
def stateBeginValueOrEmpty (s : Scanner) (c : Nat) : Scanner × ScanCode :=
  if isSpace c then (s, .scanSkipSpace)
  else if c = 0x5d then stateEndValue s c
  else stateBeginValue s c

/-- The step `stateBeginString`: after a comma inside an object. -/
def stateBeginString (s : Scanner) (c : Nat) : Scanner × ScanCode :=
  if isSpace c then (s, .scanSkipSpace)
  else if c = 0x22 then ({ s with step := .stateInString }, .scanBeginLiteral)
  else s.error c "looking for beginning of object key string"

/-- The step `stateBeginStringOrEmpty`: after the opening brace of an object. -/
def stateBeginStringOrEmpty (s : Scanner) (c : Nat) : Scanner × ScanCode :=
  if isSpace c then (s, .scanSkipSpace)
  else if c = 0x7d then
    stateEndValue { s with parseState := .parseObjectValue :: s.parseState.tail } c
  else stateBeginString s c

/-- The step `stateInString`. -/
def stateInString (s : Scanner) (c : Nat) : Scanner × ScanCode :=
  if c = 0x22 then ({ s with step := .stateEndValue }, .scanContinue)
  else if c = 0x5c then ({ s with step := .stateInStringEsc }, .scanContinue)
  else if c < 0x20 then s.error c "in string literal"
  else (s, .scanContinue)

/-- The step `stateInStringEsc`: after a backslash in a string. -/
def stateInStringEsc (s : Scanner) (c : Nat) : Scanner × ScanCode :=
  if c = 0x62 || c = 0x66 || c = 0x6e || c = 0x72 || c = 0x74 || c = 0x5c || c = 0x2f
      || c = 0x22 then
    ({ s with step := .stateInString }, .scanContinue)
  else if c = 0x75 then ({ s with step := .stateInStringEscU }, .scanContinue)
  else s.error c "in string escape code"

/-- The steps `stateInStringEscU` to `stateInStringEscU123`: one hexadecimal
digit of a `\u` escape, going on to the step `next`. -/
def stateHexDigit (next : StepFn) (s : Scanner) (c : Nat) : Scanner × ScanCode :=
  if isHex c then ({ s with step := next }, .scanContinue)
  else s.error c "in \\u hexadecimal character escape"

/-- The step `state0`: after a leading `0` or the integer part of a number. -/
def state0 (s : Scanner) (c : Nat) : Scanner × ScanCode :=
  if c = 0x2e then ({ s with step := .stateDot }, .scanContinue)
  else if c = 0x65 || c = 0x45 then ({ s with step := .stateE }, .scanContinue)
  else stateEndValue s c

/-- The step `state1`: inside the integer part of a number. -/
def state1 (s : Scanner) (c : Nat) : Scanner × ScanCode :=
  if isDigit c then ({ s with step := .state1 }, .scanContinue)
  else state0 s c

/-- The step `stateNeg`: after a minus sign. -/
def stateNeg (s : Scanner) (c : Nat) : Scanner × ScanCode :=
  if c = 0x30 then ({ s with step := .state0 }, .scanContinue)
  else if isDigit19 c then ({ s with step := .state1 }, .scanContinue)
  else s.error c "in numeric literal"

/-- The step `stateDot`: after the decimal point. -/
def stateDot (s : Scanner) (c : Nat) : Scanner × ScanCode :=
  if isDigit c then ({ s with step := .stateDot0 }, .scanContinue)
  else s.error c "after decimal point in numeric literal"

/-- The step `stateDot0`: inside the fraction. -/
def stateDot0 (s : Scanner) (c : Nat) : Scanner × ScanCode :=
  if isDigit c then (s, .scanContinue)
  else if c = 0x65 || c = 0x45 then ({ s with step := .stateE }, .scanContinue)
  else stateEndValue s c

/-- The step `stateESign`: after the sign of the exponent. -/
def stateESign (s : Scanner) (c : Nat) : Scanner × ScanCode :=
  if isDigit c then ({ s with step := .stateE0 }, .scanContinue)
  else s.error c "in exponent of numeric literal"

/-- The step `stateE`: after the exponent letter. -/
def stateE (s : Scanner) (c : Nat) : Scanner × ScanCode :=
  if c = 0x2b || c = 0x2d then ({ s with step := .stateESign }, .scanContinue)
  else stateESign s c

/-- The step `stateE0`: inside the exponent. -/
def stateE0 (s : Scanner) (c : Nat) : Scanner × ScanCode :=
  if isDigit c then (s, .scanContinue)
  else stateEndValue s c

/-- The steps of the literals `true`, `false` and `null`: the byte `want` is
expected and leads to the step `next`. -/
def stateLiteral (want : Nat) (next : StepFn) (context : String) (s : Scanner) (c : Nat) :
    Scanner × ScanCode :=
  if c = want then ({ s with step := next }, .scanContinue)
  else s.error c context

/-- One call `s.step(s, c)`: the step function the scanner currently holds. -/
def Scanner.apply (s : Scanner) (c : Nat) : Scanner × ScanCode :=
  match s.step with
  | .stateBeginValueOrEmpty => stateBeginValueOrEmpty s c
  | .stateBeginValue => stateBeginValue s c
  | .stateBeginStringOrEmpty => stateBeginStringOrEmpty s c
  | .stateBeginString => stateBeginString s c
  | .stateEndValue => stateEndValue s c
  | .stateEndTop => stateEndTop s c
  | .stateInString => stateInString s c
  | .stateInStringEsc => stateInStringEsc s c
  | .stateInStringEscU => stateHexDigit .stateInStringEscU1 s c
  | .stateInStringEscU1 => stateHexDigit .stateInStringEscU12 s c
  | .stateInStringEscU12 => stateHexDigit .stateInStringEscU123 s c
  | .stateInStringEscU123 => stateHexDigit .stateInString s c
  | .stateNeg => stateNeg s c
  | .state1 => state1 s c
  | .state0 => state0 s c
  | .stateDot => stateDot s c
  | .stateDot0 => stateDot0 s c
  | .stateE => stateE s c
  | .stateESign => stateESign s c
  | .stateE0 => stateE0 s c
  | .stateT => stateLiteral 0x72 .stateTr "in literal true (expecting 'r')" s c
  | .stateTr => stateLiteral 0x75 .stateTru "in literal true (expecting 'u')" s c
  | .stateTru => stateLiteral 0x65 .stateEndValue "in literal true (expecting 'e')" s c
  | .stateF => stateLiteral 0x61 .stateFa "in literal false (expecting 'a')" s c
  | .stateFa => stateLiteral 0x6c .stateFal "in literal false (expecting 'l')" s c
  | .stateFal => stateLiteral 0x73 .stateFals "in literal false (expecting 's')" s c
  | .stateFals => stateLiteral 0x65 .stateEndValue "in literal false (expecting 'e')" s c
  | .stateN => stateLiteral 0x75 .stateNu "in literal null (expecting 'u')" s c
  | .stateNu => stateLiteral 0x6c .stateNul "in literal null (expecting 'l')" s c
  | .stateNul => stateLiteral 0x6c .stateEndValue "in literal null (expecting 'l')" s c
  | .stateError => (s, .scanError)

/-- The method `eof`: the input has ended. -/
def Scanner.eof (s : Scanner) : Scanner × ScanCode :=
  if s.err.isSome then (s, .scanError)
  else if s.endTop then (s, .scanEnd)
  else
    let s1 := (s.apply 0x20).1
    if s1.endTop then (s1, .scanEnd)
    else if s1.err.isNone then
      ({ s1 with err := some { msg := "unexpected end of JSON input", Offset := s1.bytes } },
       .scanError)
    else (s1, .scanError)

/-- The loop of `checkValid`: feed the bytes one by one; the first step that
answers `scanError` ends the scan with the recorded error, the end of the input
calls `eof`. The result is the error returned (`none` is `nil`). -/
def checkValidFrom : Scanner → Bytes → Option SyntaxError
  | s, [] =>
    let r := s.eof
    if r.2 = .scanError then r.1.err else none
  | s, c :: cs =>
    let r := Scanner.apply { s with bytes := s.bytes + 1 } c
    if r.2 = .scanError then r.1.err else checkValidFrom r.1 cs

/-- The function `checkValid`: whether `data` is one JSON value. -/
def checkValid (data : Bytes) : Option SyntaxError :=
  checkValidFrom Scanner.reset data

/-- The text of an `UnmarshalTypeError` for a top-level JSON value of kind
`value` that cannot be stored in a `[]*corev1.PersistentVolumeSpec`. -/
def unmarshalTypeError (value : String) : String :=
  "json: cannot unmarshal " ++ value ++ " into Go value of type []*v1.PersistentVolumeSpec"

/-- The second phase of `json.Unmarshal` for valid `data` and the target type
`[]*corev1.PersistentVolumeSpec`, decided by the first byte that is not space:
`null` stores the nil slice (`none`), `[` followed by `]` stores the empty
slice, any other array goes to `storeElements`, and an object, string, boolean
or number is an `UnmarshalTypeError`. The first case is never reached after
`checkValid` has accepted `data`. -/
def storeValue {Spec : Type} (storeElements : Bytes → Except String (List (Option Spec)))
    (data : Bytes) : Except String (Option (List (Option Spec))) :=
  match data.dropWhile isSpace with
  | [] => .error "unexpected end of JSON input"
  | c :: rest =>
    if c = 0x5b then
      match rest.dropWhile isSpace with
      | 0x5d :: _ => .ok (some [])
      | _ => (storeElements data).map some
    else if c = 0x6e then .ok none
    else if c = 0x7b then .error (unmarshalTypeError "object")
    else if c = 0x22 then .error (unmarshalTypeError "string")
    else if c = 0x74 || c = 0x66 then .error (unmarshalTypeError "bool")
    else .error (unmarshalTypeError "number")

/-- The call `json.Unmarshal(data, &volumeSpecs)`: the text of the error
(`err.Error()`), or the stored slice. -/
def jsonUnmarshal {Spec : Type} (storeElements : Bytes → Except String (List (Option Spec)))
    (data : Bytes) : Except String (Option (List (Option Spec))) :=
  match checkValid data with
  | some e => .error e.msg
  | none => storeValue storeElements data

/-- The bytes of a text of ASCII characters. -/
def asciiBytes (s : String) : Bytes := s.toList.map Char.toNat

/-! ## Notions used to state the properties -/

/-- The status codes the interface description lists as surfaced to the caller:
`Unimplemented`, `NotFound`, `InvalidArgument`, `Unavailable`,
`DeadlineExceeded` and `Internal`. -/
def isSurfacedCode : Code → Bool
  | .Unimplemented => true
  | .NotFound => true
  | .InvalidArgument => true
  | .Unavailable => true
  | .DeadlineExceeded => true
  | .Internal => true
  | _ => false

/-- Two `CreateMachine` calls in sequence for the request `r`: the second
request is `r` with the `LastKnownState` of the first response (its own when
the first call gave no response). The pair of the two outcomes. -/
def createTwice {Plugin Ctx : Type} (ms : Plugin) (ctx : Ctx) (r : CreateMachineRequest) :
    Outcome CreateMachineResponse × Outcome CreateMachineResponse :=
  let first := CreateMachine ms ctx (some r)
  let carried :=
    match first.resp with
    | some resp => resp.LastKnownState
    | none => r.LastKnownState
  (first, CreateMachine ms ctx (some { r with LastKnownState := carried }))

/-- An element store for closed examples, with `Unit` standing for the
persistent-volume type: it accepts every array and stores nothing. The examples
use inputs on which `jsonUnmarshal` does not consult it. -/
def exampleStore : Bytes → Except String (List (Option Unit)) :=
  fun _ => .ok []

/-! ## Basic facts -/

section facts

variable {Plugin Ctx : Type}

theorem statusError_Unimplemented :
    statusError Code.Unimplemented "" = some { code := Code.Unimplemented, message := "" } :=
  rfl

theorem statusError_Internal (msg : String) :
    statusError Code.Internal msg = some { code := Code.Internal, message := msg } :=
  rfl

theorem statusError_code (c : Code) (msg : String) (e : Status)
    (h : statusError c msg = some e) : e.code = c ∧ e.message = msg ∧ c ≠ Code.OK := by
  unfold statusError at h
  by_cases hc : c = Code.OK
  · simp [hc] at h
  · simp only [hc, if_false, Option.some.injEq] at h
    subst h
    exact ⟨rfl, rfl, hc⟩

theorem GetVolumeIDs_of_error {Vol : Type} (unmarshal : Bytes → Except String Vol)
    (ms : Plugin) (ctx : Ctx) (r : GetVolumeIDsRequest) (msg : String)
    (h : unmarshal r.PVSpecList = .error msg) :
    GetVolumeIDs unmarshal ms ctx (some r)
      = .returned none (some { code := Code.Internal, message := msg }) := by
  simp only [GetVolumeIDs, h, statusError_Internal]

theorem GetVolumeIDs_of_ok {Vol : Type} (unmarshal : Bytes → Except String Vol)
    (ms : Plugin) (ctx : Ctx) (r : GetVolumeIDsRequest) (v : Vol)
    (h : unmarshal r.PVSpecList = .ok v) :
    GetVolumeIDs unmarshal ms ctx (some r)
      = .returned none (some { code := Code.Unimplemented, message := "" }) := by
  simp only [GetVolumeIDs, h, statusError_Unimplemented]

theorem GetVolumeIDs_cases {Vol : Type} (unmarshal : Bytes → Except String Vol)
    (ms : Plugin) (ctx : Ctx) (r : GetVolumeIDsRequest) :
    (∃ msg, unmarshal r.PVSpecList = .error msg ∧
        GetVolumeIDs unmarshal ms ctx (some r)
          = .returned none (some { code := Code.Internal, message := msg })) ∨
    (∃ v, unmarshal r.PVSpecList = .ok v ∧
        GetVolumeIDs unmarshal ms ctx (some r)
          = .returned none (some { code := Code.Unimplemented, message := "" })) := by
  cases h : unmarshal r.PVSpecList with
  | error msg => exact Or.inl ⟨msg, rfl, GetVolumeIDs_of_error unmarshal ms ctx r msg h⟩
  | ok v => exact Or.inr ⟨v, rfl, GetVolumeIDs_of_ok unmarshal ms ctx r v h⟩

/-- A nil request stops every handler before it returns. -/
theorem nil_request_dereferenced {Vol : Type} (unmarshal : Bytes → Except String Vol)
    (ms : Plugin) (ctx : Ctx) :
    CreateMachine ms ctx none = .nilDereference ∧
    DeleteMachine ms ctx none = .nilDereference ∧
    GetMachineStatus ms ctx none = .nilDereference ∧
    ListMachines ms ctx none = .nilDereference ∧
    GetVolumeIDs unmarshal ms ctx none = .nilDereference ∧
    ShutDownMachine ms ctx none = .nilDereference :=
  ⟨rfl, rfl, rfl, rfl, rfl, rfl⟩

/-- The decoder on the three inputs named in the properties, whatever the
element store: the empty input is a syntax error, `null` is the nil slice and
`[]` is the empty slice. -/
theorem jsonUnmarshal_small_inputs {Spec : Type}
    (storeElements : Bytes → Except String (List (Option Spec))) :
    jsonUnmarshal storeElements [] = .error "unexpected end of JSON input" ∧
    jsonUnmarshal storeElements (asciiBytes "null") = .ok none ∧
    jsonUnmarshal storeElements (asciiBytes "[]") = .ok (some []) :=
  ⟨rfl, rfl, rfl⟩

/-- A syntax error of the scanner is the error of the decoder, whatever the
element store. -/
theorem jsonUnmarshal_of_syntaxError {Spec : Type}
    (storeElements : Bytes → Except String (List (Option Spec))) (data : Bytes)
    (e : SyntaxError) (h : checkValid data = some e) :
    jsonUnmarshal storeElements data = .error e.msg := by
  simp only [jsonUnmarshal, h]

set_option maxRecDepth 100000 in
/-- The scanner accepts a list of two volume specifications and a `null`
entry, with white space between the tokens. -/
theorem checkValid_accepts_spec_list :
    checkValid (asciiBytes
      "[\x7b\"capacity\": \x7b\"storage\": \"1Gi\"\x7d, \"accessModes\": [\"ReadWriteOnce\"]\x7d,\n null, \x7b\"csi\": \x7b\"driver\": \"d\", \"volumeHandle\": \"vol-\\u0031\", \"readOnly\": false, \"fsType\": null, \"x\": -1.5e+3\x7d\x7d]")
      = none := by
  rfl

/-- The scanner rejects input after the top-level value, a missing value, a
control character in a string and an unfinished literal, with the messages of
the library. -/
theorem checkValid_rejects :
    checkValid (asciiBytes "[] x")
      = some { msg := "invalid character 'x' after top-level value", Offset := 4 } ∧
    checkValid (asciiBytes "[,]")
      = some { msg := "invalid character ',' looking for beginning of value", Offset := 2 } ∧
    checkValid (asciiBytes "[\"a\tb\"]")
      = some { msg := "invalid character '\\t' in string literal", Offset := 4 } ∧
    checkValid (asciiBytes "nul")
      = some { msg := "invalid character ' ' in literal null (expecting 'l')", Offset := 3 } := by
  decide

/-- A top-level value that is not an array and not `null` is a type error of
the decoder, whatever the element store. -/
theorem jsonUnmarshal_wrong_kind {Spec : Type}
    (storeElements : Bytes → Except String (List (Option Spec))) :
    jsonUnmarshal storeElements (asciiBytes "\x7b\x7d")
      = .error "json: cannot unmarshal object into Go value of type []*v1.PersistentVolumeSpec" ∧
    jsonUnmarshal storeElements (asciiBytes "\"vol-1\"")
      = .error "json: cannot unmarshal string into Go value of type []*v1.PersistentVolumeSpec" ∧
    jsonUnmarshal storeElements (asciiBytes "true")
      = .error "json: cannot unmarshal bool into Go value of type []*v1.PersistentVolumeSpec" ∧
    jsonUnmarshal storeElements (asciiBytes "-12")
      = .error "json: cannot unmarshal number into Go value of type []*v1.PersistentVolumeSpec" :=
  ⟨rfl, rfl, rfl, rfl⟩

/-- A non-empty array that the scanner accepts is decoded by the element
store. -/
theorem jsonUnmarshal_nonempty_array {Spec : Type}
    (storeElements : Bytes → Except String (List (Option Spec))) :
    jsonUnmarshal storeElements (asciiBytes "[null]")
      = (storeElements (asciiBytes "[null]")).map some :=
  rfl

end facts

/-! ## The properties -/

section properties

variable {Plugin Ctx : Type}

/-- Claim C1, as stated, fails: on the request whose `PVSpecList` is empty,
`GetVolumeIDs` returns an error of code `Internal`, not `Unimplemented`. -/
theorem GetVolumeIDs_empty_input_not_Unimplemented :
    GetVolumeIDs (jsonUnmarshal exampleStore) () () (some { PVSpecList := [] })
      = .returned none
          (some { code := Code.Internal, message := "unexpected end of JSON input" }) ∧
    statusCode (GetVolumeIDs (jsonUnmarshal exampleStore) () ()
      (some { PVSpecList := [] })).err ≠ Code.Unimplemented :=
  ⟨rfl, by decide⟩

/-- Claim C1, amended: for every request, each of `CreateMachine`,
`DeleteMachine`, `GetMachineStatus`, `ListMachines` and `ShutDownMachine`
returns an error of code `Unimplemented`; `GetVolumeIDs` returns an error whose
code is `Unimplemented` exactly when `PVSpecList` decodes, and `Internal`
exactly when it does not. -/
theorem error_code_of_each_operation {Vol : Type} (unmarshal : Bytes → Except String Vol)
    (ms : Plugin) (ctx : Ctx) :
    (∀ r, statusCode (CreateMachine ms ctx (some r)).err = Code.Unimplemented) ∧
    (∀ r, statusCode (DeleteMachine ms ctx (some r)).err = Code.Unimplemented) ∧
    (∀ r, statusCode (GetMachineStatus ms ctx (some r)).err = Code.Unimplemented) ∧
    (∀ r, statusCode (ListMachines ms ctx (some r)).err = Code.Unimplemented) ∧
    (∀ r, statusCode (ShutDownMachine ms ctx (some r)).err = Code.Unimplemented) ∧
    (∀ r : GetVolumeIDsRequest,
      (statusCode (GetVolumeIDs unmarshal ms ctx (some r)).err = Code.Unimplemented
        ↔ ∃ v, unmarshal r.PVSpecList = .ok v) ∧
      (statusCode (GetVolumeIDs unmarshal ms ctx (some r)).err = Code.Internal
        ↔ ∃ msg, unmarshal r.PVSpecList = .error msg)) := by
  refine ⟨fun _ => rfl, fun _ => rfl, fun _ => rfl, fun _ => rfl, fun _ => rfl, ?_⟩
  intro r
  rcases GetVolumeIDs_cases unmarshal ms ctx r with ⟨msg, hd, hr⟩ | ⟨v, hd, hr⟩
  · rw [hr, hd]
    simp [Outcome.err, statusCode]
  · rw [hr, hd]
    simp [Outcome.err, statusCode]

/-- Claim C2, as stated, fails: on the truncated list `[{"a"` the error of
`GetVolumeIDs` has code `Internal`, not `InvalidArgument`. -/
theorem GetVolumeIDs_truncated_input_not_InvalidArgument :
    GetVolumeIDs (jsonUnmarshal exampleStore) () ()
        (some { PVSpecList := asciiBytes "[\x7b\"a\"" })
      = .returned none
          (some { code := Code.Internal, message := "unexpected end of JSON input" }) ∧
    statusCode (GetVolumeIDs (jsonUnmarshal exampleStore) () ()
      (some { PVSpecList := asciiBytes "[\x7b\"a\"" })).err ≠ Code.InvalidArgument :=
  ⟨rfl, by decide⟩

/-- Claim C2, amended: for every request whose `PVSpecList` the decoder rejects
with the error text `msg`, `GetVolumeIDs` returns no response and an error of
code `Internal` carrying `msg`. -/
theorem GetVolumeIDs_malformed_returns_Internal {Vol : Type}
    (unmarshal : Bytes → Except String Vol) (ms : Plugin) (ctx : Ctx)
    (r : GetVolumeIDsRequest) (msg : String) (h : unmarshal r.PVSpecList = .error msg) :
    (GetVolumeIDs unmarshal ms ctx (some r)).isReturned = true ∧
    (GetVolumeIDs unmarshal ms ctx (some r)).resp = none ∧
    (GetVolumeIDs unmarshal ms ctx (some r)).err
      = some { code := Code.Internal, message := msg } := by
  rw [GetVolumeIDs_of_error unmarshal ms ctx r msg h]
  exact ⟨rfl, rfl, rfl⟩

/-- Claim C2, amended, at the list `[1,]`, which the scanner rejects at its
closing bracket. -/
theorem GetVolumeIDs_malformed_returns_Internal_witness :
    jsonUnmarshal exampleStore (asciiBytes "[1,]")
      = .error "invalid character ']' looking for beginning of value" ∧
    (GetVolumeIDs (jsonUnmarshal exampleStore) () ()
        (some { PVSpecList := asciiBytes "[1,]" })).err
      = some { code := Code.Internal,
               message := "invalid character ']' looking for beginning of value" } :=
  ⟨rfl, (GetVolumeIDs_malformed_returns_Internal (jsonUnmarshal exampleStore) () ()
    { PVSpecList := asciiBytes "[1,]" }
    "invalid character ']' looking for beginning of value" rfl).2.2⟩

/-- Claim C3 against the code: no machine is ever created by this plugin, and
for a request naming such a machine `GetMachineStatus` returns no response and
an error of code `Unimplemented` (number 12), not `NotFound` (number 5); for no
request at all is the code of its error `NotFound`. -/
theorem GetMachineStatus_absent_machine_Unimplemented :
    GetMachineStatus () ()
        (some { MachineName := "machine-0", ProviderSpec := [], Secrets := [] })
      = .returned none (some { code := Code.Unimplemented, message := "" }) ∧
    Code.toNat Code.Unimplemented = 12 ∧ Code.toNat Code.NotFound = 5 ∧
    (∀ (P C : Type) (ms : P) (ctx : C) (req : Option GetMachineStatusRequest),
      statusCode (GetMachineStatus ms ctx req).err ≠ Code.NotFound) := by
  refine ⟨rfl, rfl, rfl, ?_⟩
  intro P C ms ctx req
  cases req with
  | none => simp [GetMachineStatus, Outcome.err, statusCode]
  | some r => simp [GetMachineStatus, Outcome.err, statusCode, statusError]

/-- Claim C4, as stated, fails: for a machine that was never created,
`DeleteMachine` returns an error that is not nil. -/
theorem DeleteMachine_never_created_fails :
    (DeleteMachine () ()
        (some { MachineName := "never-created", ProviderSpec := [], Secrets := [],
                LastKnownState := [] })).err
      = some { code := Code.Unimplemented, message := "" } ∧
    (DeleteMachine () ()
        (some { MachineName := "never-created", ProviderSpec := [], Secrets := [],
                LastKnownState := [] })).err ≠ none :=
  ⟨rfl, by decide⟩

/-- Claim C4, amended: for every request, whether or not the machine it names
was ever created, `DeleteMachine` returns no response and an error of code
`Unimplemented`, never the nil error. -/
theorem DeleteMachine_always_Unimplemented (ms : Plugin) (ctx : Ctx)
    (r : DeleteMachineRequest) :
    (DeleteMachine ms ctx (some r)).isReturned = true ∧
    (DeleteMachine ms ctx (some r)).resp = none ∧
    (DeleteMachine ms ctx (some r)).err
      = some { code := Code.Unimplemented, message := "" } ∧
    (DeleteMachine ms ctx (some r)).err ≠ none :=
  ⟨rfl, rfl, rfl, by simp [DeleteMachine, Outcome.err, statusError]⟩

/-- Claim C5: whenever one of the six operations returns an error `e`, on any
request (nil or not), the code of `e` is one of `Unimplemented`, `NotFound`,
`InvalidArgument`, `Unavailable`, `DeadlineExceeded` and `Internal`. -/
theorem returned_error_code_documented {Vol : Type} (unmarshal : Bytes → Except String Vol)
    (ms : Plugin) (ctx : Ctx)
    (r1 : Option CreateMachineRequest) (r2 : Option DeleteMachineRequest)
    (r3 : Option GetMachineStatusRequest) (r4 : Option ListMachinesRequest)
    (r5 : Option GetVolumeIDsRequest) (r6 : Option ShutDownMachineRequest) (e : Status)
    (h : (CreateMachine ms ctx r1).err = some e ∨ (DeleteMachine ms ctx r2).err = some e ∨
         (GetMachineStatus ms ctx r3).err = some e ∨ (ListMachines ms ctx r4).err = some e ∨
         (GetVolumeIDs unmarshal ms ctx r5).err = some e ∨
         (ShutDownMachine ms ctx r6).err = some e) :
    isSurfacedCode e.code = true := by
  have stub : ∀ x : Option Status, x = none ∨ x = statusError Code.Unimplemented "" →
      x = some e → isSurfacedCode e.code = true := by
    intro x hx hxe
    rcases hx with hx | hx
    · rw [hx] at hxe
      exact absurd hxe (by simp)
    · rw [hx] at hxe
      rw [(statusError_code _ _ _ hxe).1]
      rfl
  rcases h with h | h | h | h | h | h
  · refine stub _ ?_ h
    cases r1 <;> simp [CreateMachine, Outcome.err]
  · refine stub _ ?_ h
    cases r2 <;> simp [DeleteMachine, Outcome.err]
  · refine stub _ ?_ h
    cases r3 <;> simp [GetMachineStatus, Outcome.err]
  · refine stub _ ?_ h
    cases r4 <;> simp [ListMachines, Outcome.err]
  · cases r5 with
    | none => simp [GetVolumeIDs, Outcome.err] at h
    | some r =>
      rcases GetVolumeIDs_cases unmarshal ms ctx r with ⟨msg, _, hr⟩ | ⟨v, _, hr⟩
      · rw [hr] at h
        simp only [Outcome.err, Option.some.injEq] at h
        rw [← h]
        rfl
      · rw [hr] at h
        simp only [Outcome.err, Option.some.injEq] at h
        rw [← h]
        rfl
  · refine stub _ ?_ h
    cases r6 <;> simp [ShutDownMachine, Outcome.err]

/-- Claim C5 at a request with an empty `PVSpecList`: the error returned by
`GetVolumeIDs` has the code `Internal`, one of the six. -/
theorem returned_error_code_documented_witness :
    (GetVolumeIDs (jsonUnmarshal exampleStore) () () (some { PVSpecList := [] })).err
      = some { code := Code.Internal, message := "unexpected end of JSON input" } ∧
    isSurfacedCode Code.Internal = true :=
  ⟨rfl, returned_error_code_documented (jsonUnmarshal exampleStore) () ()
    none none none none (some { PVSpecList := [] }) none
    { code := Code.Internal, message := "unexpected end of JSON input" }
    (Or.inr (Or.inr (Or.inr (Or.inr (Or.inl rfl)))))⟩

/-- Claim C6 against the code: the list `[]` is well formed (it decodes to the
empty slice), so the claim asks for a response with no volume IDs and the nil
error; `GetVolumeIDs` returns no response and an error of code `Unimplemented`.
The same holds for every list that decodes: no response, and an error. -/
theorem GetVolumeIDs_wellformed_list_no_response :
    jsonUnmarshal exampleStore (asciiBytes "[]") = .ok (some []) ∧
    GetVolumeIDs (jsonUnmarshal exampleStore) () () (some { PVSpecList := asciiBytes "[]" })
      = .returned none (some { code := Code.Unimplemented, message := "" }) ∧
    GetVolumeIDs (jsonUnmarshal exampleStore) () () (some { PVSpecList := asciiBytes "[]" })
      ≠ .returned (some { VolumeIDs := [] }) none ∧
    (∀ (P C Vol : Type) (unmarshal : Bytes → Except String Vol) (ms : P) (ctx : C)
        (r : GetVolumeIDsRequest) (v : Vol), unmarshal r.PVSpecList = .ok v →
      (GetVolumeIDs unmarshal ms ctx (some r)).resp = none ∧
      (GetVolumeIDs unmarshal ms ctx (some r)).err
        = some { code := Code.Unimplemented, message := "" }) := by
  refine ⟨rfl, rfl, ?_, ?_⟩
  · rw [show GetVolumeIDs (jsonUnmarshal exampleStore) () ()
        (some { PVSpecList := asciiBytes "[]" })
        = .returned none (some { code := Code.Unimplemented, message := "" }) from rfl]
    simp
  · intro P C Vol unmarshal ms ctx r v h
    rw [GetVolumeIDs_of_ok unmarshal ms ctx r v h]
    exact ⟨rfl, rfl⟩

/-- Claim C7, as stated, fails: for the provider spec `[1, 2, 3]` the first of
two `CreateMachine` calls in sequence returns no response, and so does the
second; there is no pair of responses carrying one `ProviderID`. -/
theorem CreateMachine_twice_no_response :
    (createTwice () () { MachineName := "machine-0", ProviderSpec := [1, 2, 3],
                         Secrets := [], LastKnownState := [] }).1.resp = none ∧
    (createTwice () () { MachineName := "machine-0", ProviderSpec := [1, 2, 3],
                         Secrets := [], LastKnownState := [] }).2.resp = none ∧
    ¬ ∃ a b : CreateMachineResponse,
      (createTwice () () { MachineName := "machine-0", ProviderSpec := [1, 2, 3],
                           Secrets := [], LastKnownState := [] }).1.resp = some a ∧
      (createTwice () () { MachineName := "machine-0", ProviderSpec := [1, 2, 3],
                           Secrets := [], LastKnownState := [] }).2.resp = some b ∧
      a.ProviderID = b.ProviderID := by
  refine ⟨rfl, rfl, ?_⟩
  rintro ⟨a, b, ha, _, _⟩
  exact absurd ha (by simp [createTwice, CreateMachine, Outcome.resp])

/-- Claim C7, amended: for every request, two `CreateMachine` calls in sequence
return the same pair both times, no response and an error of code
`Unimplemented` with an empty message, whatever `LastKnownState` the second
request carries; no `ProviderID` is returned. -/
theorem CreateMachine_twice_same_result (ms : Plugin) (ctx : Ctx)
    (r : CreateMachineRequest) (state : Bytes) :
    (createTwice ms ctx r).1
      = .returned none (some { code := Code.Unimplemented, message := "" }) ∧
    (createTwice ms ctx r).2 = (createTwice ms ctx r).1 ∧
    CreateMachine ms ctx (some { r with LastKnownState := state })
      = CreateMachine ms ctx (some r) :=
  ⟨rfl, rfl, rfl⟩

/-- Claim C8: for every request that is not nil, each of `CreateMachine`,
`DeleteMachine`, `GetMachineStatus`, `ListMachines` and `ShutDownMachine`
returns the nil response together with an error of code `Unimplemented` and
empty message; any two requests get the same result. -/
theorem stub_result_independent_of_request (ms : Plugin) (ctx : Ctx) :
    (∀ r r0 : CreateMachineRequest,
      CreateMachine ms ctx (some r)
        = .returned none (some { code := Code.Unimplemented, message := "" }) ∧
      CreateMachine ms ctx (some r) = CreateMachine ms ctx (some r0)) ∧
    (∀ r r0 : DeleteMachineRequest,
      DeleteMachine ms ctx (some r)
        = .returned none (some { code := Code.Unimplemented, message := "" }) ∧
      DeleteMachine ms ctx (some r) = DeleteMachine ms ctx (some r0)) ∧
    (∀ r r0 : GetMachineStatusRequest,
      GetMachineStatus ms ctx (some r)
        = .returned none (some { code := Code.Unimplemented, message := "" }) ∧
      GetMachineStatus ms ctx (some r) = GetMachineStatus ms ctx (some r0)) ∧
    (∀ r r0 : ListMachinesRequest,
      ListMachines ms ctx (some r)
        = .returned none (some { code := Code.Unimplemented, message := "" }) ∧
      ListMachines ms ctx (some r) = ListMachines ms ctx (some r0)) ∧
    (∀ r r0 : ShutDownMachineRequest,
      ShutDownMachine ms ctx (some r)
        = .returned none (some { code := Code.Unimplemented, message := "" }) ∧
      ShutDownMachine ms ctx (some r) = ShutDownMachine ms ctx (some r0)) :=
  ⟨fun _ _ => ⟨rfl, rfl⟩, fun _ _ => ⟨rfl, rfl⟩, fun _ _ => ⟨rfl, rfl⟩,
   fun _ _ => ⟨rfl, rfl⟩, fun _ _ => ⟨rfl, rfl⟩⟩

/-- Claim C9: for every `GetVolumeIDs` request that is not nil, the returned
error has code `Internal` and the decoder's error text as message when decoding
`PVSpecList` fails, and code `Unimplemented` with empty message when it
succeeds; so the code is `Internal` if and only if decoding fails. With the JSON
decoder, whatever its element store, the inputs `null` and `[]` give
`Unimplemented` and the empty input gives `Internal`. -/
theorem GetVolumeIDs_Internal_iff_decode_fails {Vol Spec : Type}
    (unmarshal : Bytes → Except String Vol)
    (storeElements : Bytes → Except String (List (Option Spec)))
    (ms : Plugin) (ctx : Ctx) (r : GetVolumeIDsRequest) :
    (∀ msg, unmarshal r.PVSpecList = .error msg →
      GetVolumeIDs unmarshal ms ctx (some r)
        = .returned none (some { code := Code.Internal, message := msg })) ∧
    (∀ v, unmarshal r.PVSpecList = .ok v →
      GetVolumeIDs unmarshal ms ctx (some r)
        = .returned none (some { code := Code.Unimplemented, message := "" })) ∧
    (statusCode (GetVolumeIDs unmarshal ms ctx (some r)).err = Code.Internal
      ↔ ∃ msg, unmarshal r.PVSpecList = .error msg) ∧
    GetVolumeIDs (jsonUnmarshal storeElements) ms ctx (some { PVSpecList := asciiBytes "null" })
      = .returned none (some { code := Code.Unimplemented, message := "" }) ∧
    GetVolumeIDs (jsonUnmarshal storeElements) ms ctx (some { PVSpecList := asciiBytes "[]" })
      = .returned none (some { code := Code.Unimplemented, message := "" }) ∧
    GetVolumeIDs (jsonUnmarshal storeElements) ms ctx (some { PVSpecList := [] })
      = .returned none
          (some { code := Code.Internal, message := "unexpected end of JSON input" }) := by
  refine ⟨fun msg h => GetVolumeIDs_of_error unmarshal ms ctx r msg h,
    fun v h => GetVolumeIDs_of_ok unmarshal ms ctx r v h, ?_, rfl, rfl, rfl⟩
  rcases GetVolumeIDs_cases unmarshal ms ctx r with ⟨msg, hd, hr⟩ | ⟨v, hd, hr⟩
  · rw [hr, hd]
    simp [Outcome.err, statusCode]
  · rw [hr, hd]
    simp [Outcome.err, statusCode]

/-- Claim C10: for each of the six operations and every request that is not
nil, the call returns, the response is nil and the error is not nil. -/
theorem no_success_path {Vol : Type} (unmarshal : Bytes → Except String Vol)
    (ms : Plugin) (ctx : Ctx) :
    (∀ r, (CreateMachine ms ctx (some r)).isReturned = true ∧
      (CreateMachine ms ctx (some r)).resp = none ∧
      (CreateMachine ms ctx (some r)).err ≠ none) ∧
    (∀ r, (DeleteMachine ms ctx (some r)).isReturned = true ∧
      (DeleteMachine ms ctx (some r)).resp = none ∧
      (DeleteMachine ms ctx (some r)).err ≠ none) ∧
    (∀ r, (GetMachineStatus ms ctx (some r)).isReturned = true ∧
      (GetMachineStatus ms ctx (some r)).resp = none ∧
      (GetMachineStatus ms ctx (some r)).err ≠ none) ∧
    (∀ r, (ListMachines ms ctx (some r)).isReturned = true ∧
      (ListMachines ms ctx (some r)).resp = none ∧
      (ListMachines ms ctx (some r)).err ≠ none) ∧
    (∀ r, (GetVolumeIDs unmarshal ms ctx (some r)).isReturned = true ∧
      (GetVolumeIDs unmarshal ms ctx (some r)).resp = none ∧
      (GetVolumeIDs unmarshal ms ctx (some r)).err ≠ none) ∧
    (∀ r, (ShutDownMachine ms ctx (some r)).isReturned = true ∧
      (ShutDownMachine ms ctx (some r)).resp = none ∧
      (ShutDownMachine ms ctx (some r)).err ≠ none) := by
  have ne : (some { code := Code.Unimplemented, message := "" } : Option Status) ≠ none := by
    simp
  refine ⟨fun _ => ⟨rfl, rfl, ne⟩, fun _ => ⟨rfl, rfl, ne⟩, fun _ => ⟨rfl, rfl, ne⟩,
    fun _ => ⟨rfl, rfl, ne⟩, ?_, fun _ => ⟨rfl, rfl, ne⟩⟩
  intro r
  rcases GetVolumeIDs_cases unmarshal ms ctx r with ⟨msg, _, hr⟩ | ⟨v, _, hr⟩
  · rw [hr]
    exact ⟨rfl, rfl, by simp [Outcome.err]⟩
  · rw [hr]
    exact ⟨rfl, rfl, by simp [Outcome.err]⟩

end properties

end sampleprovider

